import Mathlib

/-
Verification of the WhatsApp relay service (src/server.py) against its
natural-language specification.

The embedding models:
  * JSON/BSON-like values (`Value`), user records as stored in MongoDB
    (`StoredUser`), and the stripped/normalized view returned to callers
    (`UserView`);
  * the document store (`Store`) with explicit fault injection for an
    uninitialized collection, a failing `find_one`, and a failing
    `insert_one` (e.g. a duplicate-key error lost race);
  * `query_database`, `update_user_message_count`, `send_to_agent` and
    `handle_whatsapp_request`, each translated from the corresponding
    Python function, with I/O outcomes passed in explicitly
    (`AgentOutcome`, `ReqEnv`).
-/

set_option autoImplicit false

set_option maxRecDepth 8192

namespace AgriGpt

/-- A JSON/BSON-like value: null, string, number, or a raw (non-serialized)
datetime as stored by MongoDB, abstracted as a tick count. -/
inductive Value where
  | vNull : Value
  | vStr : String → Value
  | vNat : Nat → Value
  | vTime : Nat → Value
deriving DecidableEq, Repr

/-- Abstraction of Python's `datetime.isoformat()`: an injective rendering of
a tick count as a string. -/
def isoformat (t : Nat) : String :=
  "1970-01-01T00:00:" ++ toString t

/-- The conversion in `query_database`: `if isinstance(..., datetime):
user_data['createdAt'] = user_data['createdAt'].isoformat()`. Only raw
datetimes are converted; every other value is returned unchanged. -/
def normalizeCreatedAt : Value → Value
  | Value.vTime t => Value.vStr (isoformat t)
  | v => v

/-- Whether a value is a raw (non-string) datetime. -/
def Value.isRawTime : Value → Bool
  | Value.vTime _ => true
  | _ => false

/-- Whether a value is a non-empty string. -/
def Value.isNonEmptyStr : Value → Bool
  | Value.vStr s => !s.isEmpty
  | _ => false

/-- A user document as stored in the MongoDB `users` collection, including
the store-internal `_id` field (`oid`). -/
structure StoredUser where
  oid : Nat
  phoneNumber : String
  createdAt : Value
  messageCount : Nat
  lastMessage : Value
deriving DecidableEq, Repr

/-- The user dict returned by `query_database`: the `_id` field has been
popped, so the view has no `oid`. -/
structure UserView where
  phoneNumber : String
  createdAt : Value
  messageCount : Nat
  lastMessage : Value
deriving DecidableEq, Repr

/-- The document store, with fault injection: `initialized = false` models
`users_collection is None`; `connectionError = some msg` models `find_one`
raising with message `msg`; `insertError = some msg` models `insert_one`
raising with message `msg` (e.g. a duplicate-key error when a concurrent
request won the create race). -/
structure Store where
  initialized : Bool
  connectionError : Option String
  insertError : Option String
  users : List StoredUser
deriving DecidableEq, Repr

/-- Outcome of `query_database`: a user view, or an `HTTPException` with a
status code and detail string. -/
inductive DbOutcome where
  | ok : UserView → DbOutcome
  | httpError : Nat → String → DbOutcome
deriving DecidableEq, Repr

/-- `users_collection.find_one({"phoneNumber": phoneNumber})`. -/
def findOne (s : Store) (phone : String) : Option StoredUser :=
  s.users.find? (fun u => u.phoneNumber == phone)

/-- The existing-user return path of `query_database`: pop `_id`, convert a
raw `createdAt` datetime to an ISO string; `lastMessage` is returned exactly
as stored. -/
def viewOf (u : StoredUser) : UserView :=
  { phoneNumber := u.phoneNumber
    createdAt := normalizeCreatedAt u.createdAt
    messageCount := u.messageCount
    lastMessage := u.lastMessage }

/-- `query_database(phoneNumber)` from src/server.py. `now` is the value of
`datetime.utcnow()` at the call, `fid` the `_id` MongoDB would assign. Any
exception inside the body (including the `HTTPException(500, "Database not
initialized")` raised for an uninitialized collection) is caught by the
trailing `except Exception` and re-raised as
`HTTPException(500, "Database error: " + str(e))`. -/
def query_database (s : Store) (phone : String) (now fid : Nat) :
    DbOutcome × Store :=
  if s.initialized = false then
    (DbOutcome.httpError 500 "Database error: 500: Database not initialized", s)
  else
    match s.connectionError with
    | some msg => (DbOutcome.httpError 500 ("Database error: " ++ msg), s)
    | none =>
      match findOne s phone with
      | some u => (DbOutcome.ok (viewOf u), s)
      | none =>
        match s.insertError with
        | some msg => (DbOutcome.httpError 500 ("Database error: " ++ msg), s)
        | none =>
          let nu : StoredUser :=
            { oid := fid
              phoneNumber := phone
              createdAt := Value.vTime now
              messageCount := 0
              lastMessage := Value.vNull }
          (DbOutcome.ok
            { phoneNumber := phone
              createdAt := Value.vStr (isoformat now)
              messageCount := 0
              lastMessage := Value.vNull },
           { s with users := s.users ++ [nu] })

/-- `update_one` with `$inc`/`$set` updates the first matching document. -/
def updateFirst : List StoredUser → String → Nat → List StoredUser
  | [], _, _ => []
  | u :: rest, phone, now =>
    if u.phoneNumber == phone then
      { u with messageCount := u.messageCount + 1
               lastMessage := Value.vTime now } :: rest
    else
      u :: updateFirst rest phone now

/-- `update_user_message_count(phoneNumber)` from src/server.py: returns
silently when the collection is uninitialized, and swallows every error of
the `update_one` call (`updateOk = false` models the update raising). -/
def update_user_message_count (s : Store) (phone : String) (updateOk : Bool)
    (now : Nat) : Store :=
  if s.initialized = false then s
  else if updateOk = false then s
  else { s with users := updateFirst s.users phone now }

/-- The body the agent returned on a 2xx status: either text that
`response.json()` fails to parse, or a parsed JSON object (field list). -/
inductive JsonBody where
  | invalid : JsonBody
  | obj : List (String × Value) → JsonBody
deriving DecidableEq, Repr

/-- Outcome of the `httpx` POST inside `send_to_agent`, one constructor per
`except` clause plus the success path: `timeout` = `httpx.TimeoutException`,
`statusError c` = `httpx.HTTPStatusError` from `raise_for_status` with
status `c`, `connectError` = `httpx.ConnectError`, `requestError` = any
other `httpx.RequestError`, `ok body` = 2xx response with the given body,
`otherError` = any other unexpected exception. -/
inductive AgentOutcome where
  | timeout : AgentOutcome
  | statusError : Nat → AgentOutcome
  | connectError : AgentOutcome
  | requestError : AgentOutcome
  | ok : JsonBody → AgentOutcome
  | otherError : AgentOutcome
deriving DecidableEq, Repr

/-- Python `dict.get`: the first binding of the key, if any. -/
def lookupField (fields : List (String × Value)) (k : String) : Option Value :=
  Option.map Prod.snd (fields.find? (fun p => p.fst == k))

def timeoutMsg : String :=
  "Sorry, our service is taking longer than expected. Please try again in a few moments."

def unavailableMsg : String :=
  "Sorry, our AI assistant is currently unavailable. We're working to restore the service. Please try again later."

def formatMsg : String :=
  "Sorry, there was an issue with your request format. Please try again."

def technicalMsg : String :=
  "Sorry, our AI assistant is experiencing technical difficulties. Please try again in a few minutes."

def unableMsg : String :=
  "Sorry, we're unable to process your request right now. Please try again later."

def offlineMsg : String :=
  "Sorry, our AI assistant is currently offline. We're working to restore the service. Please check back soon."

def troubleMsg : String :=
  "Sorry, we're having trouble connecting to our AI assistant. Please try again in a few moments."

def invalidJsonMsg : String :=
  "Sorry, we received an invalid response from our AI assistant. Please try again."

def somethingWrongMsg : String :=
  "Sorry, something went wrong. Please try again later."

def noResponseMsg : String :=
  "No response from agent"

/-- The `httpx.HTTPStatusError` branch of `send_to_agent`: the if/elif
cascade on `e.response.status_code`. -/
def classifyStatus (code : Nat) : String :=
  if code = 405 then unavailableMsg
  else if code = 422 then formatMsg
  else if 500 ≤ code then technicalMsg
  else if 400 ≤ code then unableMsg
  else "Agent error: " ++ toString code

/-- `send_to_agent(message, user_data)` from src/server.py, as a function of
the outcome of its single `httpx` POST. The message and user data only feed
logging and the request payload, so they do not appear. On success the raw
value of the JSON `response` field is returned verbatim (it need not be a
string), with the literal fallback when the field is absent. -/
def send_to_agent (outcome : AgentOutcome) : Value :=
  match outcome with
  | AgentOutcome.ok (JsonBody.obj fields) =>
    match lookupField fields "response" with
    | some v => v
    | none => Value.vStr noResponseMsg
  | AgentOutcome.ok JsonBody.invalid => Value.vStr invalidJsonMsg
  | AgentOutcome.timeout => Value.vStr timeoutMsg
  | AgentOutcome.statusError code => Value.vStr (classifyStatus code)
  | AgentOutcome.connectError => Value.vStr offlineMsg
  | AgentOutcome.requestError => Value.vStr troubleMsg
  | AgentOutcome.otherError => Value.vStr somethingWrongMsg

/-- The failure taxonomy of the spec (section 4.2): timeout, connection
error, HTTP status error with a code of at least 400 (405, 422, 500-range,
or any other 4xx), malformed JSON body, or a valid JSON body missing the
`response` field. -/
def FailureOutcome : AgentOutcome → Prop
  | AgentOutcome.timeout => True
  | AgentOutcome.connectError => True
  | AgentOutcome.statusError code => 400 ≤ code
  | AgentOutcome.ok JsonBody.invalid => True
  | AgentOutcome.ok (JsonBody.obj fields) => lookupField fields "response" = none
  | AgentOutcome.requestError => False
  | AgentOutcome.otherError => False

/-- The pydantic request model: both fields are strings (presence is
enforced by pydantic before the handler runs). -/
structure WhatsAppRequest where
  phoneNumber : String
  message : String
deriving DecidableEq, Repr

/-- What the handler produces: a normal (200-equivalent) response envelope
`(phoneNumber, message, timestamp, status)`, or a raised `HTTPException`
with a status code and detail. -/
inductive HandlerResult where
  | envelope : String → Value → String → String → HandlerResult
  | httpError : Nat → String → HandlerResult
deriving DecidableEq, Repr

/-- The environment one `/whatsapp` request runs in: the store state, the
outcome of the agent POST, whether the usage-recording update succeeds, an
optional unexpected exception striking between the resolve-user and
forward-to-agent steps (the defensive top-level `except Exception` target),
the clock, and the `_id` a created user would get. -/
structure ReqEnv where
  store : Store
  agentOutcome : AgentOutcome
  updateOk : Bool
  unexpectedExc : Option String
  now : Nat
  freshId : Nat
deriving DecidableEq, Repr

/-- One run of the handler: its result plus which external interactions
happened and the final store state. -/
structure RunResult where
  result : HandlerResult
  storeQueried : Bool
  agentCalled : Bool
  updateAttempted : Bool
  finalStore : Store
deriving DecidableEq, Repr

def handlerApology : String :=
  "Sorry, something went wrong processing your request. Please try again later."

/-- `handle_whatsapp_request(req)` from src/server.py. Step order: validate
(400 on an empty field, before any I/O); `query_database` (an
`HTTPException` propagates via the `except HTTPException: raise` clause, so
the agent is never called); an injected unexpected exception hits the
top-level `except Exception`, which returns the apology envelope with
status `error` as a normal response; otherwise `send_to_agent`, then the
best-effort `update_user_message_count`, then the success envelope. -/
def handle_whatsapp_request (req : WhatsAppRequest) (env : ReqEnv) : RunResult :=
  if req.phoneNumber.isEmpty || req.message.isEmpty then
    { result := HandlerResult.httpError 400 "phoneNumber and message are required"
      storeQueried := false
      agentCalled := false
      updateAttempted := false
      finalStore := env.store }
  else
    match query_database env.store req.phoneNumber env.now env.freshId with
    | (DbOutcome.httpError c d, s1) =>
      { result := HandlerResult.httpError c d
        storeQueried := true
        agentCalled := false
        updateAttempted := false
        finalStore := s1 }
    | (DbOutcome.ok _, s1) =>
      match env.unexpectedExc with
      | some _ =>
        { result := HandlerResult.envelope req.phoneNumber
            (Value.vStr handlerApology) (isoformat env.now) "error"
          storeQueried := true
          agentCalled := false
          updateAttempted := false
          finalStore := s1 }
      | none =>
        let agentResponse := send_to_agent env.agentOutcome
        let s2 := update_user_message_count s1 req.phoneNumber env.updateOk env.now
        { result := HandlerResult.envelope req.phoneNumber agentResponse
            (isoformat env.now) "success"
          storeQueried := true
          agentCalled := true
          updateAttempted := true
          finalStore := s2 }

/-- An initialized, reachable, empty store. -/
def emptyStore : Store :=
  { initialized := true, connectionError := none, insertError := none, users := [] }

/-- Store holding one user whose `lastMessage` is a raw stored datetime. -/
def c3Store : Store :=
  { initialized := true
    connectionError := none
    insertError := none
    users := [{ oid := 1
                phoneNumber := "+1555"
                createdAt := Value.vTime 5
                messageCount := 3
                lastMessage := Value.vTime 7 }] }

/-- Store in which `find_one` sees no user but `insert_one` fails with a
duplicate-key error (the lost create race of spec section 3). -/
def c9Store : Store :=
  { initialized := true
    connectionError := none
    insertError := some "E11000 duplicate key error"
    users := [] }

/-- An uninitialized store (`users_collection is None`). -/
def downStore : Store :=
  { initialized := false, connectionError := none, insertError := none, users := [] }

/-- A benign baseline environment for concrete runs. -/
def baseEnv : ReqEnv :=
  { store := emptyStore
    agentOutcome := AgentOutcome.timeout
    updateOk := true
    unexpectedExc := none
    now := 0
    freshId := 0 }

/-- Baseline environment with an unexpected mid-flight exception. -/
def excEnv : ReqEnv :=
  { baseEnv with unexpectedExc := some "boom" }

/-- Baseline environment over the uninitialized store. -/
def downEnv : ReqEnv :=
  { baseEnv with store := downStore }

/-- The document `query_database` inserts for a previously unseen phone
number. -/
def newUser (phone : String) (now fid : Nat) : StoredUser :=
  { oid := fid
    phoneNumber := phone
    createdAt := Value.vTime now
    messageCount := 0
    lastMessage := Value.vNull }

/-- The view `query_database` returns after creating a user. -/
def newUserView (phone : String) (now : Nat) : UserView :=
  { phoneNumber := phone
    createdAt := Value.vStr (isoformat now)
    messageCount := 0
    lastMessage := Value.vNull }

/-- If a predicate finds nothing in the first list, searching the
concatenation searches the second list. -/
theorem find_append_of_none {α : Type} {p : α → Bool} {l1 l2 : List α}
    (h : l1.find? p = none) : (l1 ++ l2).find? p = l2.find? p := by
  induction l1 with
  | nil => rfl
  | cons a t ih =>
    cases hpa : p a with
    | true => simp [List.find?, hpa] at h
    | false =>
      simp only [List.find?, hpa] at h
      simp only [List.cons_append, List.find?, hpa]
      exact ih h

/-- `query_database` on an initialized, reachable store that already holds a
user with the requested phone number returns its stripped/normalized view
and leaves the store untouched. -/
theorem query_database_found (s : Store) (phone : String) (now fid : Nat)
    (u : StoredUser) (hinit : s.initialized = true)
    (hconn : s.connectionError = none) (hu : findOne s phone = some u) :
    query_database s phone now fid = (DbOutcome.ok (viewOf u), s) := by
  simp [query_database, hinit, hconn, hu]

/-- `query_database` on an initialized, reachable store with a working
insert and no record for the phone number appends exactly one fresh default
record and returns its view. -/
theorem query_database_create (s : Store) (phone : String) (now fid : Nat)
    (hinit : s.initialized = true) (hconn : s.connectionError = none)
    (hins : s.insertError = none) (hnone : findOne s phone = none) :
    query_database s phone now fid =
      (DbOutcome.ok (newUserView phone now),
       { s with users := s.users ++ [newUser phone now fid] }) := by
  simp [query_database, hinit, hconn, hins, hnone, newUser, newUserView]

/-- Whenever the requested phone number already has a record, no branch of
`query_database` writes to the store. -/
theorem query_database_preserves_found (s : Store) (phone : String)
    (now fid : Nat) (u : StoredUser) (hu : findOne s phone = some u) :
    (query_database s phone now fid).2 = s := by
  unfold query_database
  by_cases h1 : s.initialized = false
  · simp [h1]
  · cases hc : s.connectionError with
    | some m => simp [h1, hc]
    | none => simp [h1, hc, hu]

/-- After appending a fresh record for `phone` to a store that had none, a
lookup for `phone` finds exactly that record. -/
theorem findOne_append_new (s : Store) (phone : String) (nu : StoredUser)
    (hnone : findOne s phone = none) (hmatch : (nu.phoneNumber == phone) = true) :
    findOne { s with users := s.users ++ [nu] } phone = some nu := by
  unfold findOne at hnone ⊢
  show (s.users ++ [nu]).find? (fun u => u.phoneNumber == phone) = some nu
  rw [find_append_of_none hnone]
  simp [List.find?, hmatch]

/-- C1: for every agent-call outcome in the failure taxonomy (timeout,
connection error, HTTP status error with code 405, 422, at least 500 or any
other code of at least 400, malformed/invalid JSON body, and a valid JSON
body missing the `response` field), `send_to_agent` returns a non-empty
string; being a total Lean function over the outcome type, it raises no
exception to its caller. -/
theorem c1_send_to_agent_failure_nonempty (o : AgentOutcome)
    (h : FailureOutcome o) :
    Value.isNonEmptyStr (send_to_agent o) = true := by
  cases o with
  | timeout => decide
  | connectError => decide
  | requestError => exact False.elim h
  | otherError => exact False.elim h
  | statusError code =>
    have hc : 400 ≤ code := h
    show Value.isNonEmptyStr (Value.vStr (classifyStatus code)) = true
    unfold classifyStatus
    by_cases h1 : code = 405
    · rw [if_pos h1]; decide
    · rw [if_neg h1]
      by_cases h2 : code = 422
      · rw [if_pos h2]; decide
      · rw [if_neg h2]
        by_cases h3 : 500 ≤ code
        · rw [if_pos h3]; decide
        · rw [if_neg h3, if_pos hc]; decide
  | ok body =>
    cases body with
    | invalid => decide
    | obj fields =>
      have hn : lookupField fields "response" = none := h
      have hout : send_to_agent (AgentOutcome.ok (JsonBody.obj fields)) =
          Value.vStr noResponseMsg := by
        simp [send_to_agent, hn]
      rw [hout]
      decide

/-- C1 witness: the timeout outcome yields a non-empty string. -/
theorem c1_witness :
    Value.isNonEmptyStr (send_to_agent AgentOutcome.timeout) = true :=
  c1_send_to_agent_failure_nonempty AgentOutcome.timeout True.intro

/-- C2: when validation and user resolution succeed but an unexpected
exception strikes before the remaining steps complete, the top-level
`except Exception` converts it into a normal response envelope (not a
raised `HTTPException`) with status `error` and the generic apology
message. -/
theorem c2_unexpected_error_envelope (req : WhatsAppRequest) (env : ReqEnv)
    (msg : String) {v : UserView} {s1 : Store}
    (hp : req.phoneNumber.isEmpty = false) (hm : req.message.isEmpty = false)
    (hexc : env.unexpectedExc = some msg)
    (hq : query_database env.store req.phoneNumber env.now env.freshId =
      (DbOutcome.ok v, s1)) :
    (handle_whatsapp_request req env).result =
      HandlerResult.envelope req.phoneNumber (Value.vStr handlerApology)
        (isoformat env.now) "error" := by
  simp [handle_whatsapp_request, hp, hm, hq, hexc]

/-- C2 witness: a concrete run with an injected unexpected exception
returns the apology envelope with status `error`. -/
theorem c2_witness :
    (handle_whatsapp_request ⟨"+1555", "hi"⟩ excEnv).result =
      HandlerResult.envelope "+1555" (Value.vStr handlerApology)
        (isoformat 0) "error" :=
  c2_unexpected_error_envelope ⟨"+1555", "hi"⟩ excEnv "boom"
    (by decide) (by decide) rfl rfl

/-- C3 counterexample: the claim says every timestamp of an existing record
is normalized to a portable string, but for a stored user whose
`lastMessage` is a raw datetime, `query_database` returns that raw datetime
unchanged — only `createdAt` is converted. -/
theorem c3_counterexample :
    (query_database c3Store "+1555" 11 2).1 =
      DbOutcome.ok { phoneNumber := "+1555"
                     createdAt := Value.vStr (isoformat 5)
                     messageCount := 3
                     lastMessage := Value.vTime 7 } ∧
    Value.isRawTime (Value.vTime 7) = true := by
  constructor
  · rfl
  · rfl

/-- C3 amended: if a record exists it is returned with the store-internal
`_id` stripped and its `createdAt` (only) normalized to a string when it is
a raw datetime, `lastMessage` being returned exactly as stored; if none
exists, exactly one new record is created and persisted with
`messageCount = 0`, `lastMessage = null`, `createdAt = now`, and the
returned view has `_id` stripped and `createdAt` as a string. -/
theorem c3_amended_get_or_create (s : Store) (phone : String) (now fid : Nat)
    (hinit : s.initialized = true) (hconn : s.connectionError = none)
    (hins : s.insertError = none) :
    (∀ u, findOne s phone = some u →
      query_database s phone now fid =
        (DbOutcome.ok { phoneNumber := u.phoneNumber
                        createdAt := normalizeCreatedAt u.createdAt
                        messageCount := u.messageCount
                        lastMessage := u.lastMessage }, s)) ∧
    (findOne s phone = none →
      query_database s phone now fid =
        (DbOutcome.ok { phoneNumber := phone
                        createdAt := Value.vStr (isoformat now)
                        messageCount := 0
                        lastMessage := Value.vNull },
         { s with users := s.users ++
             [{ oid := fid
                phoneNumber := phone
                createdAt := Value.vTime now
                messageCount := 0
                lastMessage := Value.vNull }] })) := by
  constructor
  · intro u hu
    simp [query_database, hinit, hconn, hu, viewOf]
  · intro hnone
    simp [query_database, hinit, hconn, hins, hnone]

/-- C3 witness: creating a user in the empty store persists exactly one
default record and returns its stripped view. -/
theorem c3_amended_witness :
    query_database emptyStore "+1555" 3 1 =
      (DbOutcome.ok { phoneNumber := "+1555"
                      createdAt := Value.vStr (isoformat 3)
                      messageCount := 0
                      lastMessage := Value.vNull },
       { emptyStore with users := [{ oid := 1
                                     phoneNumber := "+1555"
                                     createdAt := Value.vTime 3
                                     messageCount := 0
                                     lastMessage := Value.vNull }] }) :=
  (c3_amended_get_or_create emptyStore "+1555" 3 1 rfl rfl rfl).2 rfl

/-- C4: on a validated request, if the store is uninitialized or
unreachable the handler surfaces an HTTP 500 error and never calls the
agent; more generally, whenever user resolution fails with an
`HTTPException` it propagates unchanged and the agent is never
contacted. -/
theorem c4_store_down_no_agent_call (req : WhatsAppRequest) (env : ReqEnv)
    (hp : req.phoneNumber.isEmpty = false) (hm : req.message.isEmpty = false) :
    ((env.store.initialized = false ∨ env.store.connectionError ≠ none) →
      (∃ d, (handle_whatsapp_request req env).result =
              HandlerResult.httpError 500 d) ∧
      (handle_whatsapp_request req env).agentCalled = false) ∧
    (∀ c d s1,
      query_database env.store req.phoneNumber env.now env.freshId =
        (DbOutcome.httpError c d, s1) →
      (handle_whatsapp_request req env).result = HandlerResult.httpError c d ∧
      (handle_whatsapp_request req env).agentCalled = false) := by
  have hmain : ∀ c d s1,
      query_database env.store req.phoneNumber env.now env.freshId =
        (DbOutcome.httpError c d, s1) →
      (handle_whatsapp_request req env).result = HandlerResult.httpError c d ∧
      (handle_whatsapp_request req env).agentCalled = false := by
    intro c d s1 hq
    constructor
    · simp [handle_whatsapp_request, hp, hm, hq]
    · simp [handle_whatsapp_request, hp, hm, hq]
  refine ⟨?_, hmain⟩
  intro hdown
  by_cases hinit : env.store.initialized = false
  · have hq : query_database env.store req.phoneNumber env.now env.freshId =
        (DbOutcome.httpError 500 "Database error: 500: Database not initialized",
         env.store) := by
      simp [query_database, hinit]
    exact ⟨⟨_, (hmain _ _ _ hq).1⟩, (hmain _ _ _ hq).2⟩
  · rcases hdown with h | hconn
    · exact absurd h hinit
    · cases hco : env.store.connectionError with
      | none => exact absurd hco hconn
      | some m =>
        have hq : query_database env.store req.phoneNumber env.now env.freshId =
            (DbOutcome.httpError 500 ("Database error: " ++ m), env.store) := by
          simp [query_database, hinit, hco]
        exact ⟨⟨_, (hmain _ _ _ hq).1⟩, (hmain _ _ _ hq).2⟩

/-- C4 witness: with the uninitialized store, a valid request yields an
HTTP 500 error and the agent is never called. -/
theorem c4_witness :
    (∃ d, (handle_whatsapp_request ⟨"+1555", "hi"⟩ downEnv).result =
            HandlerResult.httpError 500 d) ∧
    (handle_whatsapp_request ⟨"+1555", "hi"⟩ downEnv).agentCalled = false :=
  (c4_store_down_no_agent_call ⟨"+1555", "hi"⟩ downEnv
    (by decide) (by decide)).1 (Or.inl rfl)

/-- C5: a request with an empty phone number or empty message fails fast
with HTTP 400, no store operation and no agent call occur, and the store is
untouched. -/
theorem c5_empty_field_fail_fast (req : WhatsAppRequest) (env : ReqEnv)
    (h : req.phoneNumber = "" ∨ req.message = "") :
    (handle_whatsapp_request req env).result =
      HandlerResult.httpError 400 "phoneNumber and message are required" ∧
    (handle_whatsapp_request req env).storeQueried = false ∧
    (handle_whatsapp_request req env).agentCalled = false ∧
    (handle_whatsapp_request req env).finalStore = env.store := by
  have hcond : (req.phoneNumber.isEmpty || req.message.isEmpty) = true := by
    rcases h with h | h
    · rw [h]; simp only [Bool.or_eq_true]; exact Or.inl (by decide)
    · rw [h]; simp only [Bool.or_eq_true]; exact Or.inr (by decide)
  simp [handle_whatsapp_request, hcond]

/-- C5 witness: the empty phone number is rejected with 400 and no
store or agent interaction. -/
theorem c5_witness :
    (handle_whatsapp_request ⟨"", "hi"⟩ baseEnv).result =
      HandlerResult.httpError 400 "phoneNumber and message are required" ∧
    (handle_whatsapp_request ⟨"", "hi"⟩ baseEnv).storeQueried = false ∧
    (handle_whatsapp_request ⟨"", "hi"⟩ baseEnv).agentCalled = false ∧
    (handle_whatsapp_request ⟨"", "hi"⟩ baseEnv).finalStore = baseEnv.store :=
  c5_empty_field_fail_fast ⟨"", "hi"⟩ baseEnv (Or.inl rfl)

/-- C6: the HTTP-status-error reply is determined exactly by the spec's
sub-classification: 405 gives the "currently unavailable" message, 422 the
"issue with your request format" message, any code of at least 500 the
"technical difficulties" message, and any other code of at least 400 the
generic "unable to process" message. -/
theorem c6_status_classification (code : Nat) :
    (code = 405 →
      send_to_agent (AgentOutcome.statusError code) = Value.vStr unavailableMsg) ∧
    (code = 422 →
      send_to_agent (AgentOutcome.statusError code) = Value.vStr formatMsg) ∧
    (500 ≤ code →
      send_to_agent (AgentOutcome.statusError code) = Value.vStr technicalMsg) ∧
    (400 ≤ code → code ≠ 405 → code ≠ 422 → code < 500 →
      send_to_agent (AgentOutcome.statusError code) = Value.vStr unableMsg) := by
  refine ⟨?_, ?_, ?_, ?_⟩
  · intro h; subst h; rfl
  · intro h; subst h; rfl
  · intro h
    show Value.vStr (classifyStatus code) = Value.vStr technicalMsg
    unfold classifyStatus
    rw [if_neg (by omega), if_neg (by omega), if_pos h]
  · intro h h405 h422 h500
    show Value.vStr (classifyStatus code) = Value.vStr unableMsg
    unfold classifyStatus
    rw [if_neg h405, if_neg h422, if_neg (by omega), if_pos h]

/-- C6 witness: concrete codes 405, 422, 503 and 401 map to the four
messages. -/
theorem c6_witness :
    send_to_agent (AgentOutcome.statusError 405) = Value.vStr unavailableMsg ∧
    send_to_agent (AgentOutcome.statusError 422) = Value.vStr formatMsg ∧
    send_to_agent (AgentOutcome.statusError 503) = Value.vStr technicalMsg ∧
    send_to_agent (AgentOutcome.statusError 401) = Value.vStr unableMsg :=
  ⟨(c6_status_classification 405).1 rfl,
   (c6_status_classification 422).2.1 rfl,
   (c6_status_classification 503).2.2.1 (by omega),
   (c6_status_classification 401).2.2.2 (by omega) (by omega) (by omega) (by omega)⟩

/-- C7: `query_database` is idempotent — after the creating call for a new
phone number, a second call returns the same view without touching the
store (a pure read); and for any store already holding a record for the
requested number, the call never modifies the store (so no duplicate is
created and the existing `createdAt` is untouched). -/
theorem c7_idempotent (s : Store) (phone : String) (now1 now2 fid1 fid2 : Nat)
    (hinit : s.initialized = true) (hconn : s.connectionError = none)
    (hins : s.insertError = none) (hnew : findOne s phone = none) :
    ((query_database (query_database s phone now1 fid1).2 phone now2 fid2).1 =
       (query_database s phone now1 fid1).1 ∧
     (query_database (query_database s phone now1 fid1).2 phone now2 fid2).2 =
       (query_database s phone now1 fid1).2) ∧
    (∀ (s2 : Store) (q : String) (u : StoredUser) (n f : Nat),
      findOne s2 q = some u → (query_database s2 q n f).2 = s2) := by
  constructor
  · have hq1 := query_database_create s phone now1 fid1 hinit hconn hins hnew
    have hfind : findOne { s with users := s.users ++ [newUser phone now1 fid1] }
        phone = some (newUser phone now1 fid1) :=
      findOne_append_new s phone _ hnew (by simp [newUser])
    have hq2 := query_database_found
        { s with users := s.users ++ [newUser phone now1 fid1] }
        phone now2 fid2 (newUser phone now1 fid1)
        (by simp [hinit]) (by simp [hconn]) hfind
    have e1 : (query_database s phone now1 fid1).1 =
        DbOutcome.ok (newUserView phone now1) := by rw [hq1]
    have e2 : (query_database s phone now1 fid1).2 =
        { s with users := s.users ++ [newUser phone now1 fid1] } := by rw [hq1]
    rw [e2, hq2, e1]
    constructor
    · show DbOutcome.ok (viewOf (newUser phone now1 fid1)) =
        DbOutcome.ok (newUserView phone now1)
      simp [viewOf, newUser, newUserView, normalizeCreatedAt]
    · rfl
  · intro s2 q u n f hu
    exact query_database_preserves_found s2 q n f u hu

/-- C7 witness: creating then re-querying a user in the empty store gives
the same view and store; querying the store that already has the user
leaves it unchanged. -/
theorem c7_witness :
    ((query_database (query_database emptyStore "+1" 2 3).2 "+1" 9 4).1 =
       (query_database emptyStore "+1" 2 3).1 ∧
     (query_database (query_database emptyStore "+1" 2 3).2 "+1" 9 4).2 =
       (query_database emptyStore "+1" 2 3).2) ∧
    (query_database c3Store "+1555" 9 4).2 = c3Store :=
  ⟨(c7_idempotent emptyStore "+1" 2 9 3 4 rfl rfl rfl rfl).1,
   (c7_idempotent emptyStore "+1" 2 9 3 4 rfl rfl rfl rfl).2 c3Store "+1555"
     ⟨1, "+1555", Value.vTime 5, 3, Value.vTime 7⟩ 9 4 rfl⟩

/-- C8: usage recording never influences the response — two handler runs
identical except for whether `update_user_message_count`'s update succeeds
produce the same result (payload and status); and a failing update is
swallowed, leaving the store unchanged rather than raising. -/
theorem c8_usage_recording_no_influence (req : WhatsAppRequest) (env : ReqEnv)
    (b1 b2 : Bool) :
    (handle_whatsapp_request req { env with updateOk := b1 }).result =
      (handle_whatsapp_request req { env with updateOk := b2 }).result ∧
    (∀ (s : Store) (phone : String) (now : Nat),
      update_user_message_count s phone false now = s) := by
  constructor
  · by_cases hv : (req.phoneNumber.isEmpty || req.message.isEmpty) = true
    · simp [handle_whatsapp_request, hv]
    · simp only [Bool.not_eq_true] at hv
      cases hq : query_database env.store req.phoneNumber env.now env.freshId with
      | mk o s1 =>
        cases o with
        | httpError c d => simp [handle_whatsapp_request, hv, hq]
        | ok v =>
          cases he : env.unexpectedExc with
          | some m => simp [handle_whatsapp_request, hv, hq, he]
          | none => simp [handle_whatsapp_request, hv, hq, he]
  · intro s phone now
    simp [update_user_message_count]

/-- C9 counterexample: when the lookup finds no user and the insert fails
with a duplicate-key error (the lost create race), `query_database` does
not swallow the error and re-read — it fails the request with HTTP 500. -/
theorem c9_counterexample :
    (query_database c9Store "+1555" 0 0).1 =
      DbOutcome.httpError 500 "Database error: E11000 duplicate key error" := by
  rfl

/-- C9 amended: a duplicate-key (or any other) failure of the insert is
caught by the accessor's generic exception handler and surfaced as an HTTP
500 database error, failing the request; the store is left unchanged and no
re-read occurs. -/
theorem c9_amended_duplicate_key_500 (s : Store) (phone : String)
    (now fid : Nat) (msg : String)
    (hinit : s.initialized = true) (hconn : s.connectionError = none)
    (hnone : findOne s phone = none) (hdup : s.insertError = some msg) :
    query_database s phone now fid =
      (DbOutcome.httpError 500 ("Database error: " ++ msg), s) := by
  simp [query_database, hinit, hconn, hnone, hdup]

/-- C9 witness: the duplicate-key store yields the HTTP 500 database
error. -/
theorem c9_amended_witness :
    query_database c9Store "+1" 0 0 =
      (DbOutcome.httpError 500
        ("Database error: " ++ "E11000 duplicate key error"), c9Store) :=
  c9_amended_duplicate_key_500 c9Store "+1" 0 0 "E11000 duplicate key error"
    rfl rfl rfl rfl

/-- C10: on a 2xx response whose body is a valid JSON object, the value of
the `response` key is returned verbatim with no type or emptiness check
(null stays null, the empty string stays empty), and the literal fallback
"No response from agent" is returned exactly when the key is absent. -/
theorem c10_response_field_verbatim (fields : List (String × Value)) :
    (∀ v : Value, lookupField fields "response" = some v →
      send_to_agent (AgentOutcome.ok (JsonBody.obj fields)) = v) ∧
    (lookupField fields "response" = none →
      send_to_agent (AgentOutcome.ok (JsonBody.obj fields)) =
        Value.vStr noResponseMsg) := by
  constructor
  · intro v hv
    simp [send_to_agent, hv]
  · intro hn
    simp [send_to_agent, hn]

/-- C10 witness: a null `response` yields null, an empty-string `response`
yields the empty string, and an absent key yields the fallback. -/
theorem c10_witness :
    send_to_agent (AgentOutcome.ok (JsonBody.obj [("response", Value.vNull)])) =
      Value.vNull ∧
    send_to_agent (AgentOutcome.ok (JsonBody.obj [("response", Value.vStr "")])) =
      Value.vStr "" ∧
    send_to_agent (AgentOutcome.ok (JsonBody.obj [("hello", Value.vStr "x")])) =
      Value.vStr noResponseMsg :=
  ⟨(c10_response_field_verbatim [("response", Value.vNull)]).1 Value.vNull rfl,
   (c10_response_field_verbatim [("response", Value.vStr "")]).1 (Value.vStr "") rfl,
   (c10_response_field_verbatim [("hello", Value.vStr "x")]).2 rfl⟩

end AgriGpt
